import Mathlib

/-!
Verification of the Vimeo title-tagging automaton
(`src/vimeo/automaton/src/automaton/automaton.py`).

The development shallowly embeds the program: network responses become
explicit inductive values, Python exceptions become `Except` errors, and the
Python `datetime` operations the script uses (`fromisoformat`, `strftime`,
aware-datetime comparison) are modelled as executable Lean functions.
-/

namespace Automaton

/-! ## Python primitives used by the script -/

/-- Python `NameError` and friends: the unhandled exceptions the script can
raise.  Only `NameError` actually occurs (the script references several
undefined names). -/
inductive PyError where
  | nameError (n : String)
deriving Repr, DecidableEq

/-- Model of a Python `datetime` value as produced by
`datetime.fromisoformat`: calendar fields plus an optional UTC offset in
seconds (`none` means a naive datetime). -/
structure PyDateTime where
  year : Nat
  month : Nat
  day : Nat
  hour : Nat
  minute : Nat
  second : Nat
  microsecond : Nat
  utcoffset : Option Int
deriving Repr, DecidableEq

def isLeapYear (y : Nat) : Bool :=
  (y % 4 == 0 && y % 100 != 0) || y % 400 == 0

def daysInMonth (y m : Nat) : Nat :=
  if m == 2 then (if isLeapYear y then 29 else 28)
  else if m == 4 || m == 6 || m == 9 || m == 11 then 30
  else 31

/-- Days from 0000-03-01 to year/month/day (civil calendar), valid for
`y ≥ 1`; used to compare datetimes as instants the way Python compares
aware datetimes. -/
def daysFromCivil (y m d : Nat) : Nat :=
  let yy := if m ≤ 2 then y - 1 else y
  let era := yy / 400
  let yoe := yy % 400
  let mp := if m > 2 then m - 3 else m + 9
  let doy := (153 * mp + 2) / 5 + (d - 1)
  let doe := yoe * 365 + yoe / 4 - yoe / 100 + doy
  era * 146097 + doe

/-- The instant of a datetime in microseconds (offset subtracted), the
quantity Python compares when ordering aware datetimes. -/
def toUTCMicroseconds (dt : PyDateTime) : Int :=
  ((daysFromCivil dt.year dt.month dt.day : Int) * 86400
      + (dt.hour : Int) * 3600 + (dt.minute : Int) * 60 + (dt.second : Int)
      - dt.utcoffset.getD 0) * 1000000
    + (dt.microsecond : Int)

/-- Exactly two decimal digits. -/
def digit2 : List Char → Option (Nat × List Char)
  | a :: b :: rest =>
      if a.isDigit && b.isDigit then
        some ((a.toNat - 48) * 10 + (b.toNat - 48), rest)
      else none
  | _ => none

/-- Exactly four decimal digits. -/
def digit4 : List Char → Option (Nat × List Char)
  | a :: b :: c :: d :: rest =>
      if a.isDigit && b.isDigit && c.isDigit && d.isDigit then
        some (((a.toNat - 48) * 10 + (b.toNat - 48)) * 100
                + (c.toNat - 48) * 10 + (d.toNat - 48), rest)
      else none
  | _ => none

def natOfDigits (ds : List Char) : Nat :=
  ds.foldl (fun n c => n * 10 + (c.toNat - 48)) 0

/-- Time-of-day part of an ISO string: `HH[:MM[:SS[.fff|.ffffff]]]`,
as accepted by `datetime.fromisoformat`.  Returns
(hour, minute, second, microsecond, remaining characters). -/
def pyParseTimeOfDay (cs : List Char) : Option (Nat × Nat × Nat × Nat × List Char) :=
  match digit2 cs with
  | none => none
  | some (h, r1) =>
    match r1 with
    | ':' :: r2 =>
      match digit2 r2 with
      | none => none
      | some (mi, r3) =>
        match r3 with
        | ':' :: r4 =>
          match digit2 r4 with
          | none => none
          | some (s, r5) =>
            match r5 with
            | '.' :: r6 =>
              let ds := r6.takeWhile Char.isDigit
              let rest := r6.drop ds.length
              if ds.length == 3 then some (h, mi, s, 1000 * natOfDigits ds, rest)
              else if ds.length == 6 then some (h, mi, s, natOfDigits ds, rest)
              else none
            | _ => some (h, mi, s, 0, r5)
        | _ => some (h, mi, 0, 0, r3)
    | _ => some (h, 0, 0, 0, r1)

/-- UTC-offset suffix of an ISO string: empty (naive), or `±HH:MM[:SS]`
consuming the rest of the string.  Result is the offset in seconds;
`timezone` requires the absolute offset to be below 24 hours. -/
def pyParseTzSuffix (cs : List Char) : Option (Option Int) :=
  match cs with
  | [] => some none
  | sign :: r0 =>
    if sign == '+' || sign == '-' then
      match digit2 r0 with
      | some (h, ':' :: r2) =>
        match digit2 r2 with
        | some (mi, r3) =>
          let base := h * 3600 + mi * 60
          let total? : Option Nat :=
            match r3 with
            | [] => some base
            | ':' :: r4 =>
              match digit2 r4 with
              | some (s, []) => some (base + s)
              | _ => none
            | _ => none
          match total? with
          | none => none
          | some total =>
            if total < 86400 then
              some (some (if sign == '-' then -(total : Int) else (total : Int)))
            else none
        | none => none
      | _ => none
    else none

/-- Field validation done by the `datetime` constructor. -/
def mkPyDateTime (y mo d h mi s us : Nat) (tz : Option Int) : Option PyDateTime :=
  if 1 ≤ y && y ≤ 9999 && 1 ≤ mo && mo ≤ 12 && 1 ≤ d && d ≤ daysInMonth y mo
      && h ≤ 23 && mi ≤ 59 && s ≤ 59 && us ≤ 999999 then
    some ⟨y, mo, d, h, mi, s, us, tz⟩
  else none

/-- Model of `datetime.fromisoformat`: `YYYY-MM-DD`, optionally followed by a
single separator character, a time of day, and a UTC offset.  Returns `none`
where Python raises `ValueError`. -/
def pyFromIsoformat (str : String) : Option PyDateTime :=
  match digit4 str.toList with
  | none => none
  | some (y, r1) =>
    match r1 with
    | '-' :: r2 =>
      match digit2 r2 with
      | none => none
      | some (mo, r3) =>
        match r3 with
        | '-' :: r4 =>
          match digit2 r4 with
          | none => none
          | some (d, r5) =>
            match r5 with
            | [] => mkPyDateTime y mo d 0 0 0 0 none
            | _sep :: r6 =>
              match pyParseTimeOfDay r6 with
              | none => none
              | some (h, mi, s, us, r7) =>
                match pyParseTzSuffix r7 with
                | none => none
                | some tz => mkPyDateTime y mo d h mi s us tz
        | _ => none
    | _ => none

/-- Model of the script's `upload_date_str.replace('Z', '+00:00')`
(the needle is a single character, so this is a per-character expansion). -/
def pyReplaceZ (s : String) : String :=
  String.mk ((s.toList.map (fun c => if c == 'Z' then "+00:00".toList else [c])).flatten)

/-- Model of `strftime` for the directives the script's `DATE_FORMAT`
uses: `%Y`, `%m`, `%d`; every other character is copied verbatim. -/
def zeroPad (w n : Nat) : String :=
  let r := Nat.repr n
  if r.length < w then String.mk (List.replicate (w - r.length) '0') ++ r else r

def strftimeChars (dt : PyDateTime) : List Char → List Char
  | [] => []
  | '%' :: 'Y' :: rest => (zeroPad 4 dt.year).toList ++ strftimeChars dt rest
  | '%' :: 'm' :: rest => (zeroPad 2 dt.month).toList ++ strftimeChars dt rest
  | '%' :: 'd' :: rest => (zeroPad 2 dt.day).toList ++ strftimeChars dt rest
  | c :: rest => c :: strftimeChars dt rest

def pyStrftime (dt : PyDateTime) (fmt : String) : String :=
  String.mk (strftimeChars dt fmt.toList)

/-- Python's substring test `sub in s`. -/
def charsContain (hay needle : List Char) : Bool :=
  hay.tails.any (fun t => needle.isPrefixOf t)

def strContains (s sub : String) : Bool :=
  charsContain s.toList sub.toList

/-- Python's `u.split('/')[-1]`: the suffix of `u` after the last slash. -/
def lastSegmentAfterSlash (u : String) : String :=
  String.mk ((u.toList.reverse.takeWhile (fun c => c != '/')).reverse)

/-! ## Module-level constants (automaton.py lines 20-26) -/

def DATE_FORMAT : String := "%Y-%m-%d"

def LOOKBACK_HOURS : Nat := 48

def EXCLUDED_FOLDER_IDS : List String := ["11103430", "8219992", "6002849"]

/-! ## `get_video_id_from_uri` (automaton.py lines 241-250) -/

/-- One attempt of the regex `/videos/(\d+)` at the head of the character
list: the literal `/videos/` followed by at least one digit; the greedy `+`
captures the maximal digit run. -/
def matchVideosAt (cs : List Char) : Option (List Char) :=
  if "/videos/".toList.isPrefixOf cs then
    let ds := (cs.drop 8).takeWhile Char.isDigit
    if ds.isEmpty then none else some ds
  else none

/-- `re.search(r'/videos/(\d+)', uri)`: leftmost match, group 1. -/
def reSearchVideos : List Char → Option (List Char)
  | [] => none
  | c :: rest =>
    match matchVideosAt (c :: rest) with
    | some ds => some ds
    | none => reSearchVideos rest

/-- automaton.py lines 241-250.  The argument is `none` when the Python
caller passes a non-string (e.g. `None`). -/
def get_video_id_from_uri : Option String → Option String
  | none => none
  | some s => if s = "" then none else (reSearchVideos s.toList).map String.mk

/-- Modelled from the spec: `get_folder_id_from_uri` is called at
automaton.py line 324 but is defined nowhere under `src/`; spec section 4.2
specifies the container half of the codec, `containerIdFromUri(uri) ->
Option<Id>`, a pure function extracting the numeric identifier via the fixed
pattern `.../folders/<digits>` and returning absent on `null`, the empty
string, or a pattern mismatch. -/
def get_folder_id_from_uri : Option String → Option String
  | none => none
  | some s => if s = "" then none else (reSearchFolders s.toList).map String.mk
where
  matchFoldersAt (cs : List Char) : Option (List Char) :=
    if "/folders/".toList.isPrefixOf cs then
      let ds := (cs.drop 9).takeWhile Char.isDigit
      if ds.isEmpty then none else some ds
    else none
  reSearchFolders : List Char → Option (List Char)
    | [] => none
    | c :: rest =>
      match matchFoldersAt (c :: rest) with
      | some ds => some ds
      | none => reSearchFolders rest

/-! ## Data model of API responses -/

/-- The `parent_folder` field of a video record, distinguishing exactly the
cases the filter loop (automaton.py lines 320-334) distinguishes: Python
`None`, a falsy dict, a truthy dict with an optional `uri` field, or a
truthy value of some other type. -/
inductive ParentFolder where
  | pyNone
  | emptyDict
  | dict (uri : Option String)
  | nonDict
deriving Repr, DecidableEq

/-- A video record as requested by the lister
(`fields=name,created_time,uri,parent_folder.uri`); each field may be
missing from the JSON. -/
structure VideoInfo where
  uri : Option String
  name : Option String
  created_time : Option String
  parent_folder : ParentFolder
deriving Repr, DecidableEq

/-- Outcome of one `GET /me/videos` page request, distinguishing exactly the
cases `get_all_user_videos` distinguishes: the three `except` arms, a JSON
body that fails to decode, a falsy decoded body, a `data` field that is not
a list, or a proper page with its video list and the presence of a
`paging.next` link. -/
inductive PageResult where
  | httpError
  | connectionError
  | unexpectedError
  | jsonError
  | emptyData
  | notListData
  | page (videos : List VideoInfo) (hasNext : Bool)
deriving Repr, DecidableEq

/-- Outcome of the `GET /me` request made by `get_authenticated_user_id`:
the exception arms, or a decoded body whose `uri` field is optional. -/
inductive MeResponse where
  | httpError
  | connectionError
  | unexpectedError
  | ok (uri : Option String)
deriving Repr, DecidableEq

/-! ## `get_authenticated_user_id` (automaton.py lines 34-55) -/

/-- automaton.py lines 34-55: on any caught exception or a falsy `uri`
field return `None`; otherwise return `user_uri.split('/')[-1]`. -/
def get_authenticated_user_id : MeResponse → Option String
  | .ok (some u) => if u = "" then none else some (lastSegmentAfterSlash u)
  | _ => none

/-! ## `get_all_user_videos` (automaton.py lines 57-127) -/

/-- The `while True` pagination loop of `get_all_user_videos`.  The input
list holds the successive responses to `GET /me/videos` for pages 1, 2, ...;
each iteration consumes one response (one request, counted in the second
component).  Every `except` arm and every malformed-payload check `break`s
out of the loop, after which the accumulated list is returned. -/
def get_all_user_videos_aux : List PageResult → List VideoInfo → Nat → List VideoInfo × Nat
  | [], acc, n => (acc, n)
  | r :: rest, acc, n =>
    match r with
    | .httpError => (acc, n + 1)
    | .connectionError => (acc, n + 1)
    | .unexpectedError => (acc, n + 1)
    | .jsonError => (acc, n + 1)
    | .emptyData => (acc, n + 1)
    | .notListData => (acc, n + 1)
    | .page videos_on_page hasNext =>
      if videos_on_page.isEmpty then (acc, n + 1)
      else if hasNext then get_all_user_videos_aux rest (acc ++ videos_on_page) (n + 1)
      else (acc ++ videos_on_page, n + 1)

/-- The list `get_all_user_videos` returns. -/
def get_all_user_videos (pages : List PageResult) : List VideoInfo :=
  (get_all_user_videos_aux pages [] 0).1

/-- The number of page requests `get_all_user_videos` issues. -/
def get_all_user_videos_requests (pages : List PageResult) : Nat :=
  (get_all_user_videos_aux pages [] 0).2

/-! ## The folder-exclusion decision (automaton.py lines 320-337) -/

/-- Lines 321-334 of the filter loop, as the decision they compute: is the
video excluded because of its parent folder?  A truthy dict resolves its
`uri` through `get_folder_id_from_uri`; exclusion requires a truthy resolved
id that is a member of `EXCLUDED_FOLDER_IDS` (`if folder_id and folder_id in
EXCLUDED_FOLDER_IDS`).  `None`, a falsy dict, and a non-dict value all fall
through without excluding. -/
def folder_exclusion_decision : ParentFolder → Bool
  | .dict u =>
    match get_folder_id_from_uri u with
    | some folder_id => folder_id != "" && EXCLUDED_FOLDER_IDS.contains folder_id
    | none => false
  | _ => false

/-! ## The per-video update step (automaton.py lines 430-485) -/

/-- Per-video outcome in the updater loop; the source only keeps two
counters (`processed_count`, `skipped_count`), and every constructor except
`updated` is counted as skipped. -/
inductive Outcome where
  | skippedMissingUri
  | skippedNoId
  | skippedNoTitle
  | skippedNoDate
  | skippedParseError
  | alreadyTagged
  | updated
  | updateFailed
deriving Repr, DecidableEq

/-- One body of the updater loop (automaton.py lines 430-485) for a single
video record.  `patchOk` abstracts the boolean result of
`update_video_title` (lines 252-274); the second component is the list of
PATCH requests issued, each carrying the video id and the `name` payload —
the only field the request rewrites.  The date tag is computed from the
video's own `created_time` (no wall clock is consulted: the function takes
none). -/
def process_video (patchOk : Bool) (v : VideoInfo) : Outcome × List (String × String) :=
  match v.uri with
  | none => (.skippedMissingUri, [])
  | some u =>
    if u = "" then (.skippedMissingUri, [])
    else
      match get_video_id_from_uri (some u) with
      | none => (.skippedNoId, [])
      | some video_id =>
        match v.name with
        | none => (.skippedNoTitle, [])
        | some current_title =>
          if current_title = "" then (.skippedNoTitle, [])
          else
            match v.created_time with
            | none => (.skippedNoDate, [])
            | some upload_date_str =>
              if upload_date_str = "" then (.skippedNoDate, [])
              else
                match pyFromIsoformat (pyReplaceZ upload_date_str) with
                | none => (.skippedParseError, [])
                | some dt_object =>
                  let formatted_date := pyStrftime dt_object DATE_FORMAT
                  if strContains current_title formatted_date then (.alreadyTagged, [])
                  else
                    let new_title := current_title ++ " (" ++ formatted_date ++ ")"
                    if patchOk then (.updated, [(video_id, new_title)])
                    else (.updateFailed, [(video_id, new_title)])

/-! ## The recency test (automaton.py lines 342-346 and 411-412) -/

/-- The instant of a video's `created_time` after the script's parse
(`fromisoformat` of the `Z`-replaced string), if it parses. -/
def created_instant (v : VideoInfo) : Option Int :=
  v.created_time.bind (fun s => (pyFromIsoformat (pyReplaceZ s)).map toUTCMicroseconds)

/-- The test `video_created_dt > forty_eight_hours_ago` applied to a video
record; `false` when `created_time` is missing or unparsable. -/
def video_is_newer_than (cutoff : PyDateTime) (v : VideoInfo) : Bool :=
  match created_instant v with
  | none => false
  | some t => toUTCMicroseconds cutoff < t

/-- Adjacent-pairs check that a list of videos is sorted by creation time
descending (the precondition the spec's early-exit claim assumes). -/
def videos_sorted_desc : List VideoInfo → Bool
  | v :: w :: rest =>
    (match created_instant v, created_instant w with
     | some a, some b => b ≤ a
     | _, _ => false)
      && videos_sorted_desc (w :: rest)
  | _ => true

/-! ## `main` (automaton.py lines 276-490) -/

/-- The filter loop of `main` (automaton.py lines 310-355).  Its body's
first statement, line 311, is `video_uri = video.info.get('uri')`: the name
`video` is not bound in this scope (the loop variable is `video_info`), so
Python raises `NameError` on the first iteration; no statement of the body
after line 311 is reachable.  (Were it reached, line 324 would likewise
raise `NameError` for the undefined `get_folder_id_from_uri`, and line 344
for the misspelt `timezeone`.) -/
def filter_videos_loop : List VideoInfo → Except PyError (List VideoInfo × Nat × Nat)
  | [] => .ok ([], 0, 0)
  | _video_info :: _rest => .error (.nameError "video")

/-- What a run of `main` can observe before the first unhandled exception. -/
inductive MainOutcome where
  | credsMissing
  | authAborted
  | noVideos
deriving Repr, DecidableEq

/-- Counts of network requests a run issues: `GET /me`, `GET /me/videos`
pages, and `PATCH /videos/{id}` title updates. -/
structure RunLog where
  me_requests : Nat
  list_requests : Nat
  patch_requests : Nat
deriving Repr, DecidableEq

/-- automaton.py lines 276-490, `main`, embedded up to its first unhandled
exception.  Inputs: whether each credential environment variable is set
(line 281), the `GET /me` response, and the `GET /me/videos` page stream.
After the credential and identity gates, `get_all_user_videos` fetches the
library; a non-empty library enters the filter loop, which raises
`NameError` (line 311).  The unreachable continuation at line 362 calls the
undefined `get_user_folders` and would raise `NameError` as well. -/
def main_run (hasToken hasClientId hasClientSecret : Bool) (me : MeResponse)
    (pages : List PageResult) : Except PyError MainOutcome × RunLog :=
  if !hasToken && !(hasClientId && hasClientSecret) then (.ok .credsMissing, ⟨0, 0, 0⟩)
  else
    match get_authenticated_user_id me with
    | none => (.ok .authAborted, ⟨1, 0, 0⟩)
    | some authenticated_user_id =>
      if authenticated_user_id = "" then (.ok .authAborted, ⟨1, 0, 0⟩)
      else
        let fetched := get_all_user_videos_aux pages [] 0
        if fetched.1.isEmpty then (.ok .noVideos, ⟨1, fetched.2, 0⟩)
        else
          match filter_videos_loop fetched.1 with
          | .error e => (.error e, ⟨1, fetched.2, 0⟩)
          | .ok _ => (.error (.nameError "get_user_folders"), ⟨1, fetched.2, 0⟩)

/-! ## Concrete inputs used by the claim theorems -/

def c1V1 : VideoInfo :=
  ⟨some "/videos/1", some "A", some "2024-03-05T00:00:00+00:00", ParentFolder.pyNone⟩

def c1V2 : VideoInfo :=
  ⟨some "/videos/2", some "B", some "2024-03-01T00:00:00+00:00", ParentFolder.pyNone⟩

def c1Cutoff : PyDateTime := ⟨2024, 3, 8, 0, 0, 0, 0, some 0⟩

def c1Stream : List PageResult :=
  [PageResult.page [c1V1] true, PageResult.page [c1V2] false]

def c2Video : VideoInfo :=
  ⟨some "/videos/42", some "Sunday Service (2024-03-10)", some "2024-03-10T14:00:00Z",
    ParentFolder.pyNone⟩

def c3Video : VideoInfo :=
  ⟨some "/videos/77", some "Wednesday Night", some "2025-10-11T18:00:00+00:00",
    ParentFolder.pyNone⟩

def c3Cutoff : PyDateTime := ⟨2025, 10, 10, 18, 0, 0, 0, some 0⟩

def c4Video : VideoInfo :=
  ⟨some "/videos/42", some "Sunday Service", some "2025-10-11T12:00:00+00:00",
    ParentFolder.pyNone⟩

def c5Video : VideoInfo :=
  ⟨some "/videos/9", some "Morning Service", some "2024-03-05T00:00:00+00:00",
    ParentFolder.pyNone⟩

def c7Video : VideoInfo :=
  ⟨some "/videos/42", some "Sunday Service", some "2024-03-10T14:00:00Z",
    ParentFolder.pyNone⟩

/-! ## Helper lemmas -/

/-- A prefix of non-empty pages that all signal a next link is consumed
whole by the pagination loop: its videos are appended to the accumulator and
one request is counted per page. -/
theorem get_all_user_videos_aux_good_pages (rest : List PageResult) :
    ∀ (pre : List (List VideoInfo)), pre.all (fun vs => !vs.isEmpty) = true →
    ∀ (acc : List VideoInfo) (n : Nat),
      get_all_user_videos_aux (pre.map (fun vs => PageResult.page vs true) ++ rest) acc n
        = get_all_user_videos_aux rest (acc ++ pre.flatten) (n + pre.length) := by
  intro pre
  induction pre with
  | nil => intro _ acc n; simp
  | cons vs pre ih =>
    intro hpre acc n
    rw [List.all_cons, Bool.and_eq_true] at hpre
    have hvs : vs.isEmpty = false := by
      have h1 := hpre.1
      cases h : vs.isEmpty
      · rfl
      · rw [h] at h1; exact absurd h1 (by decide)
    have step : get_all_user_videos_aux
        ((vs :: pre).map (fun l => PageResult.page l true) ++ rest) acc n
        = get_all_user_videos_aux (pre.map (fun l => PageResult.page l true) ++ rest)
            (acc ++ vs) (n + 1) := by
      simp [get_all_user_videos_aux, hvs]
    rw [step, ih hpre.2 (acc ++ vs) (n + 1)]
    have hA : acc ++ vs ++ pre.flatten = acc ++ (vs :: pre).flatten := by
      simp [List.append_assoc]
    have hB : n + 1 + pre.length = n + (vs :: pre).length := by
      simp only [List.length_cons]; omega
    rw [hA, hB]

/-- A successful match of `/videos/(\d+)` captures a non-empty run of
digits. -/
theorem matchVideosAt_digits {cs ds : List Char} (h : matchVideosAt cs = some ds) :
    ds ≠ [] ∧ ds.all Char.isDigit = true := by
  simp only [matchVideosAt] at h
  by_cases hp1 : ("/videos/".toList.isPrefixOf cs) = true
  · rw [if_pos hp1] at h
    by_cases he : ((cs.drop 8).takeWhile Char.isDigit).isEmpty = true
    · rw [if_pos he] at h; exact Option.noConfusion h
    · rw [if_neg he] at h
      injection h with h2
      subst h2
      constructor
      · intro hnil
        exact he (by rw [hnil]; rfl)
      · rw [List.all_eq_true]
        intro c hc
        exact List.mem_takeWhile_imp hc
  · rw [if_neg hp1] at h; exact Option.noConfusion h

/-- Whatever `re.search(r'/videos/(\d+)', ...)` returns is a non-empty run
of digits. -/
theorem reSearchVideos_digits :
    ∀ {cs ds : List Char}, reSearchVideos cs = some ds →
      ds ≠ [] ∧ ds.all Char.isDigit = true := by
  intro cs
  induction cs with
  | nil => intro ds h; exact Option.noConfusion h
  | cons c rest ih =>
    intro ds h
    cases hm : matchVideosAt (c :: rest) with
    | some ds2 =>
      simp only [reSearchVideos, hm] at h
      cases h
      exact matchVideosAt_digits hm
    | none =>
      simp only [reSearchVideos, hm] at h
      exact ih h

/-! ## Claim theorems -/

/-- C1, counterexample.  On the two-page stream `c1Stream`, sorted
descending (first conjunct), the first asset `c1V1` — on page 1 — is already
at or older than the cutoff (second conjunct).  The claim then demands that
the listing terminate at page 1 and return exactly the strictly-newer assets
seen, i.e. the empty list.  The code instead returns both assets, including
the one on page 2 (third conjunct), issues a second page request (fourth
conjunct), and the returned list differs from the strictly-newer subset of
what it returned, which is empty (fifth conjunct). -/
theorem C1_counterexample :
    videos_sorted_desc [c1V1, c1V2] = true ∧
    video_is_newer_than c1Cutoff c1V1 = false ∧
    get_all_user_videos c1Stream = [c1V1, c1V2] ∧
    get_all_user_videos_requests c1Stream = 2 ∧
    (get_all_user_videos c1Stream).filter (video_is_newer_than c1Cutoff) = [] :=
  ⟨by decide, by decide, by decide, by decide, by decide⟩

/-- C1, amended.  The lister ignores the cutoff entirely: it requests pages
in ascending order, continuing exactly while the current page parses to a
non-empty asset list and the API signals a next page, and when it stops it
returns the concatenation of every asset on every fetched page — regardless
of each asset's age relative to any cutoff (the function consults none);
time filtering is left to the orchestrator. -/
theorem C1_lister_fetches_every_page (pre : List (List VideoInfo))
    (vsLast : List VideoInfo)
    (hpre : pre.all (fun vs => !vs.isEmpty) = true)
    (hlast : vsLast.isEmpty = false) :
    get_all_user_videos (pre.map (fun vs => PageResult.page vs true)
        ++ [PageResult.page vsLast false]) = pre.flatten ++ vsLast ∧
    get_all_user_videos_requests (pre.map (fun vs => PageResult.page vs true)
        ++ [PageResult.page vsLast false]) = pre.length + 1 := by
  constructor
  · unfold get_all_user_videos
    rw [get_all_user_videos_aux_good_pages _ pre hpre [] 0]
    simp [get_all_user_videos_aux, hlast]
  · unfold get_all_user_videos_requests
    rw [get_all_user_videos_aux_good_pages _ pre hpre [] 0]
    simp [get_all_user_videos_aux, hlast]

/-- C1, witness for the amended theorem at a concrete two-page stream. -/
theorem C1_lister_fetches_every_page_witness :
    get_all_user_videos [PageResult.page [c1V1] true, PageResult.page [c1V2] false]
      = [c1V1, c1V2] ∧
    get_all_user_videos_requests
        [PageResult.page [c1V1] true, PageResult.page [c1V2] false] = 2 := by
  have h := C1_lister_fetches_every_page [[c1V1]] [c1V2] (by decide) (by decide)
  exact ⟨h.1.trans (by decide), h.2.trans (by decide)⟩

/-- C2: an asset with a valid uri, a non-empty title that already contains
its date tag (the `DATE_FORMAT` = `%Y-%m-%d` rendering of its parsed
`created_time`), returns `alreadyTagged` and issues zero PATCH requests.
The function is pure, so every repeated invocation on the unchanged asset
returns the same pair; the quantifiers cover every invocation. -/
theorem C2_already_tagged_no_network_call (patchOk : Bool)
    (u title ds vid : String) (pf : ParentFolder) (dt : PyDateTime)
    (hid : get_video_id_from_uri (some u) = some vid)
    (ht : title ≠ "")
    (hp : pyFromIsoformat (pyReplaceZ ds) = some dt)
    (hc : strContains title (pyStrftime dt DATE_FORMAT) = true) :
    process_video patchOk ⟨some u, some title, some ds, pf⟩
      = (Outcome.alreadyTagged, []) := by
  have hu : u ≠ "" := by
    intro e; subst e; simp [get_video_id_from_uri] at hid
  have hds : ds ≠ "" := by
    intro e; subst e
    have hnone : pyFromIsoformat (pyReplaceZ "") = none := by decide
    rw [hnone] at hp
    exact Option.noConfusion hp
  simp [process_video, hu, hid, ht, hds, hp, hc]

/-- C2, witness: the already-tagged concrete asset is skipped with no PATCH
request. -/
theorem C2_already_tagged_no_network_call_witness :
    process_video true c2Video = (Outcome.alreadyTagged, []) := by
  have h := C2_already_tagged_no_network_call true "/videos/42"
    "Sunday Service (2024-03-10)" "2024-03-10T14:00:00Z" "42" ParentFolder.pyNone
    ⟨2024, 3, 10, 14, 0, 0, 0, some 0⟩ (by decide) (by decide) (by decide) (by decide)
  exact h

/-- C3: with the credentials present, identity resolved, and the library
holding exactly one qualifying asset — strictly newer than the cutoff
(second conjunct) and in no container (first conjunct) — the claim requires
that asset to be present in the title updater's input.  Instead the run
raises an unhandled `NameError` in the filter loop (automaton.py line 311
reads the undefined name `video`) and issues zero PATCH requests (the
`RunLog`'s last component), so the asset never reaches the updater; the
filtered list `videos_to_process` is moreover never passed to the updater
loop, which consumes a separate folder-scan collection. -/
theorem C3_folderless_asset_never_reaches_updater :
    c3Video.parent_folder = ParentFolder.pyNone ∧
    video_is_newer_than c3Cutoff c3Video = true ∧
    main_run true true true (MeResponse.ok (some "/users/123"))
        [PageResult.page [c3Video] false]
      = (Except.error (PyError.nameError "video"), ⟨1, 1, 0⟩) :=
  ⟨rfl, by decide, rfl⟩

/-- C4: the claim says per-asset problems never terminate the run, yet on a
library holding a single well-formed asset the orchestrator raises an
unhandled `NameError`: line 311 of `main`'s filter loop reads the undefined
name `video` (the loop variable is `video_info`), so the very first
per-asset step aborts the whole run. -/
theorem C4_unhandled_name_error_terminates_run :
    main_run true true true (MeResponse.ok (some "/users/5"))
        [PageResult.page [c4Video] false]
      = (Except.error (PyError.nameError "video"), ⟨1, 1, 0⟩) := rfl

/-- C5: after any prefix of well-formed non-empty pages, an HTTP-status
failure, a transport failure, or a malformed (non-list) `data` payload on
the next page terminates the listing, which returns the assets accumulated
from the earlier pages — a value, not an exception (the embedding's return
type carries no error case, mirroring the `except` arms that `break`). -/
theorem C5_partial_result_on_page_failure (pre : List (List VideoInfo))
    (err : PageResult) (rest : List PageResult)
    (hpre : pre.all (fun vs => !vs.isEmpty) = true)
    (herr : err = PageResult.httpError ∨ err = PageResult.connectionError ∨
      err = PageResult.notListData) :
    get_all_user_videos (pre.map (fun vs => PageResult.page vs true) ++ err :: rest)
      = pre.flatten := by
  unfold get_all_user_videos
  rw [get_all_user_videos_aux_good_pages _ pre hpre [] 0]
  rcases herr with h | h | h <;> subst h <;> simp [get_all_user_videos_aux]

/-- C5, witness: one good page, then an HTTP failure: the good page's asset
is returned. -/
theorem C5_partial_result_on_page_failure_witness :
    get_all_user_videos [PageResult.page [c5Video] true, PageResult.httpError]
      = [c5Video] := by
  have h := C5_partial_result_on_page_failure [[c5Video]] PageResult.httpError []
    (by decide) (Or.inl rfl)
  exact h.trans (by decide)

/-- C6: the folder-exclusion decision keeps a video with no parent folder,
keeps a video whose parent-folder reference is a falsy dict or non-dict
value, keeps a video whose parent-folder uri does not resolve to a folder
id, and excludes a video only when a positively resolved folder id is a
member of `EXCLUDED_FOLDER_IDS`. -/
theorem C6_exclusion_requires_resolved_match :
    folder_exclusion_decision ParentFolder.pyNone = false ∧
    folder_exclusion_decision ParentFolder.emptyDict = false ∧
    folder_exclusion_decision ParentFolder.nonDict = false ∧
    (∀ u, get_folder_id_from_uri u = none →
      folder_exclusion_decision (ParentFolder.dict u) = false) ∧
    (∀ pf, folder_exclusion_decision pf = true →
      ∃ u fid, pf = ParentFolder.dict u ∧ get_folder_id_from_uri u = some fid ∧
        EXCLUDED_FOLDER_IDS.contains fid = true) := by
  refine ⟨rfl, rfl, rfl, ?_, ?_⟩
  · intro u hu
    simp [folder_exclusion_decision, hu]
  · intro pf h
    cases pf with
    | dict u =>
      cases hres : get_folder_id_from_uri u with
      | none => simp [folder_exclusion_decision, hres] at h
      | some fid =>
        simp only [folder_exclusion_decision, hres, Bool.and_eq_true] at h
        exact ⟨u, fid, rfl, hres, h.2⟩
    | pyNone => simp [folder_exclusion_decision] at h
    | emptyDict => simp [folder_exclusion_decision] at h
    | nonDict => simp [folder_exclusion_decision] at h

/-- C6, witness: a parent-folder dict whose uri cannot be resolved is kept
(not excluded). -/
theorem C6_exclusion_requires_resolved_match_witness :
    folder_exclusion_decision (ParentFolder.dict (some "/folders/banana")) = false :=
  C6_exclusion_requires_resolved_match.2.2.2.1 (some "/folders/banana") (by decide)

/-- C7: an asset with a valid uri, non-empty title, and parsable
`created_time` whose title does not yet contain its date tag gets exactly
one PATCH request rewriting only the title field to
`title ++ " (" ++ dateTag ++ ")"`, where the tag renders the asset's own
creation instant (`process_video` consults no wall clock). -/
theorem C7_new_title_computation (patchOk : Bool)
    (u title ds vid : String) (pf : ParentFolder) (dt : PyDateTime)
    (hid : get_video_id_from_uri (some u) = some vid)
    (ht : title ≠ "")
    (hp : pyFromIsoformat (pyReplaceZ ds) = some dt)
    (hc : strContains title (pyStrftime dt DATE_FORMAT) = false) :
    process_video patchOk ⟨some u, some title, some ds, pf⟩
      = (if patchOk then Outcome.updated else Outcome.updateFailed,
         [(vid, title ++ " (" ++ pyStrftime dt DATE_FORMAT ++ ")")]) := by
  have hu : u ≠ "" := by
    intro e; subst e; simp [get_video_id_from_uri] at hid
  have hds : ds ≠ "" := by
    intro e; subst e
    have hnone : pyFromIsoformat (pyReplaceZ "") = none := by decide
    rw [hnone] at hp
    exact Option.noConfusion hp
  cases patchOk <;> simp [process_video, hu, hid, ht, hds, hp, hc]

/-- C7, witness: title `Sunday Service` with `createdAt`
`2024-03-10T14:00:00Z` yields the new title `Sunday Service (2024-03-10)`. -/
theorem C7_new_title_computation_witness :
    process_video true c7Video
      = (Outcome.updated, [("42", "Sunday Service (2024-03-10)")]) := by
  have h := C7_new_title_computation true "/videos/42" "Sunday Service"
    "2024-03-10T14:00:00Z" "42" ParentFolder.pyNone
    ⟨2024, 3, 10, 14, 0, 0, 0, some 0⟩ (by decide) (by decide) (by decide) (by decide)
  exact h.trans (by decide)

/-- C8: the asset-id codec is a pure total function (its Lean type raises
nothing): it is absent on a null input, the empty string, and a
pattern-mismatching string, yields the digits `42` on `/videos/42`, and
every value it ever returns is a non-empty run of decimal digits — the
numeric identifier. -/
theorem C8_video_id_codec :
    get_video_id_from_uri none = none ∧
    get_video_id_from_uri (some "") = none ∧
    get_video_id_from_uri (some "/videos/abc") = none ∧
    get_video_id_from_uri (some "/videos/42") = some (Nat.repr 42) ∧
    (∀ s d, get_video_id_from_uri s = some d →
      d ≠ "" ∧ d.toList.all Char.isDigit = true) := by
  refine ⟨by decide, by decide, by decide, by decide, ?_⟩
  intro s d h
  cases s with
  | none => simp [get_video_id_from_uri] at h
  | some str =>
    by_cases hs : str = ""
    · subst hs; simp [get_video_id_from_uri] at h
    · simp only [get_video_id_from_uri, if_neg hs] at h
      rcases Option.map_eq_some'.mp h with ⟨ds, hds, rfl⟩
      rcases reSearchVideos_digits hds with ⟨hne, hall⟩
      constructor
      · intro he
        exact hne (congrArg String.data he)
      · exact hall

/-- C8, witness for the universally quantified part: the id extracted from
`/videos/42` is a non-empty digit string. -/
theorem C8_video_id_codec_witness :
    Nat.repr 42 ≠ "" ∧ (Nat.repr 42).toList.all Char.isDigit = true :=
  C8_video_id_codec.2.2.2.2 (some "/videos/42") (Nat.repr 42) (by decide)

/-- C9: identity resolution returns `None` exactly on a non-2xx status, a
transport-level failure, an unexpected exception while reading the
response, or a response whose `uri` field is missing or empty; and whenever
it returns `None` (with credentials present), `main` aborts at once with no
page listing and no PATCH request (the `RunLog` records one `GET /me` and
nothing else), so no filtering or update runs. -/
theorem C9_identity_failure_aborts :
    (∀ me, get_authenticated_user_id me = none ↔
      me = MeResponse.httpError ∨ me = MeResponse.connectionError ∨
      me = MeResponse.unexpectedError ∨ me = MeResponse.ok none ∨
      me = MeResponse.ok (some "")) ∧
    (∀ me hasToken hasClientId hasClientSecret pages,
      get_authenticated_user_id me = none →
      (!hasToken && !(hasClientId && hasClientSecret)) = false →
      main_run hasToken hasClientId hasClientSecret me pages
        = (Except.ok MainOutcome.authAborted, ⟨1, 0, 0⟩)) := by
  constructor
  · intro me
    cases me with
    | httpError => simp [get_authenticated_user_id]
    | connectionError => simp [get_authenticated_user_id]
    | unexpectedError => simp [get_authenticated_user_id]
    | ok u =>
      cases u with
      | none => simp [get_authenticated_user_id]
      | some s =>
        by_cases hs : s = ""
        · subst hs; simp [get_authenticated_user_id]
        · simp [get_authenticated_user_id, hs]
  · intro me tok cid csec pages hauth hcreds
    cases tok <;> cases cid <;> cases csec <;> simp_all [main_run]

/-- C9, witness: a non-2xx `GET /me` response aborts the run before any
listing. -/
theorem C9_identity_failure_aborts_witness :
    get_authenticated_user_id MeResponse.httpError = none ∧
    main_run true true true MeResponse.httpError [PageResult.page [] false]
      = (Except.ok MainOutcome.authAborted, ⟨1, 0, 0⟩) := by
  have h1 := (C9_identity_failure_aborts.1 MeResponse.httpError).mpr (Or.inl rfl)
  exact ⟨h1, C9_identity_failure_aborts.2 MeResponse.httpError true true true
    [PageResult.page [] false] h1 (by decide)⟩

/-- C10: the regex is searched, not anchored — a uri with surrounding
segments still yields an id — the digits of the first (leftmost) occurrence
are returned, and the value is the digit string itself, not a parsed
integer (the embedding's return type is `Option String`, as the source
returns `match.group(1)`). -/
theorem C10_regex_search_unanchored :
    get_video_id_from_uri (some "/users/1/videos/42/comments") = some "42" ∧
    get_video_id_from_uri (some "a/videos/10/videos/20") = some "10" :=
  ⟨by decide, by decide⟩

end Automaton
